import Mathlib

/-!
Verification of `scripts/generate_app_icon.py` from the sunlight-tracker
repository: a one-shot generator that renders a sun icon at a master size
and writes one PNG per configured size.

Modelling choices:
* Python floats are modelled as exact rationals (`ℚ`); the trigonometric
  functions of `math` (`radians`, `cos`, `sin`), whose exact float values
  the claims never depend on, are abstracted into a `PyMath` record of
  rational-valued functions, so every statement is universally quantified
  over them.
* Drawing is modelled as the trace of drawing commands issued to the
  `ImageDraw` object, and the driver `main` as the trace of filesystem and
  console events it performs, in order.
* Python `int()` (truncation toward zero) is `pyInt`.
-/

namespace SunIcon

/-- Python `int()` on a rational: truncation toward zero
(`Int` division `num / den` truncates toward zero). -/
def pyInt (q : ℚ) : ℤ := q.num / (q.den : ℤ)

/-- The `math` functions used by `draw_icon`, abstracted: `radians`
takes the integer degree values the script produces; `cos` and `sin`
take the resulting (radian) value. -/
structure PyMath where
  radians : ℤ → ℚ
  cos : ℚ → ℚ
  sin : ℚ → ℚ

/-- PIL resampling filters (`Image.Resampling`). -/
inductive Resampling
  | NEAREST | BOX | BILINEAR | HAMMING | BICUBIC | LANCZOS
deriving DecidableEq, Repr

/-- A drawing command issued to the `ImageDraw` object, with the exact
arguments the script passes. -/
inductive DrawCmd
  | rounded_rectangle (box : List ℚ) (radius : ℤ) (fill : List ℕ)
  | ellipse (box : List ℚ) (fill : List ℕ) (outline : List ℕ) (width : ℤ)
  | polygon (pts : List ℚ) (fill : List ℕ)
deriving DecidableEq, Repr

/-- The result of `draw_icon`: the canvas created by `Image.new` plus the
ordered list of drawing commands painted onto it. -/
structure IconImage where
  width : ℕ
  height : ℕ
  mode : String
  background : List ℕ
  cmds : List DrawCmd
deriving DecidableEq, Repr

/-- `SIZES = [16, 32, 64, 128, 256, 512, 1024]` -/
def SIZES : List ℕ := [16, 32, 64, 128, 256, 512, 1024]

/-- `MASTER_SIZE = 1024` -/
def MASTER_SIZE : ℕ := 1024

/-- `OUT_DIR`, the fixed output directory: the repository-root–relative
path `Path(__file__).resolve().parent.parent / "SunlightTracker/..."`
resolves to. -/
def OUT_DIR : String := "SunlightTracker/Assets.xcassets/AppIcon.appiconset"

/-- `draw_icon(size)`: transparent square RGBA canvas, rounded-rectangle
background, sun circle with outline, then eight ray polygons
(`for i in range(8)`), exactly as in the source. -/
def draw_icon (m : PyMath) (size : ℕ) : IconImage :=
  let scale : ℚ := (size : ℚ) / (MASTER_SIZE : ℚ)
  let radius : ℤ := max 2 (pyInt ((size : ℚ) * (18 / 100)))
  let cx : ℚ := (size : ℚ) * (1 / 2)
  let cy : ℚ := (size : ℚ) * (48 / 100)
  let r_sun : ℚ := (size : ℚ) * (26 / 100)
  let ray_len : ℚ := (size : ℚ) * (40 / 100)
  let ray_width_deg : ℤ := 20
  let rays : List DrawCmd := (List.range 8).map (fun i =>
    let angle_deg : ℤ := (i : ℤ) * 45
    let angle_rad_lo : ℚ := m.radians (angle_deg - ray_width_deg)
    let angle_rad_hi : ℚ := m.radians (angle_deg + ray_width_deg)
    let x1 : ℚ := cx + ray_len * m.cos angle_rad_lo
    let y1 : ℚ := cy - ray_len * m.sin angle_rad_lo
    let x2 : ℚ := cx + ray_len * m.cos angle_rad_hi
    let y2 : ℚ := cy - ray_len * m.sin angle_rad_hi
    DrawCmd.polygon [cx, cy, x1, y1, x2, y2] [255, 230, 160])
  { width := size
    height := size
    mode := "RGBA"
    background := [0, 0, 0, 0]
    cmds :=
      DrawCmd.rounded_rectangle [0, 0, (size : ℚ) - 1, (size : ℚ) - 1]
          radius [220, 120, 50, 255]
        :: DrawCmd.ellipse
            [cx - r_sun, cy - r_sun, cx + r_sun, cy + r_sun]
            [255, 248, 220] [255, 220, 150] (max 1 (pyInt (2 * scale)))
        :: rays }

/-- An image as saved by `main`: either the master render itself, or the
result of `master.resize((s, s), filter)`. -/
inductive OutImage
  | master (img : IconImage)
  | resized (img : IconImage) (w : ℕ) (h : ℕ) (filter : Resampling)
deriving DecidableEq, Repr

/-- Pixel width of a saved image. -/
def OutImage.outWidth : OutImage → ℕ
  | OutImage.master img => img.width
  | OutImage.resized _ w _ _ => w

/-- Pixel height of a saved image. -/
def OutImage.outHeight : OutImage → ℕ
  | OutImage.master img => img.height
  | OutImage.resized _ _ h _ => h

/-- The master render a saved image is derived from. -/
def OutImage.base : OutImage → IconImage
  | OutImage.master img => img
  | OutImage.resized img _ _ _ => img

/-- The corner radius passed to the rounded-rectangle background command
of an icon image (0 if the image does not start with one). -/
def bgRadius (img : IconImage) : ℤ :=
  match img.cmds with
  | DrawCmd.rounded_rectangle _ r _ :: _ => r
  | _ => 0

/-- The outline width passed to the sun-circle ellipse command of an icon
image (0 if the second command is not an ellipse). -/
def sunOutlineWidth (img : IconImage) : ℤ :=
  match img.cmds with
  | _ :: DrawCmd.ellipse _ _ _ w :: _ => w
  | _ => 0

/-- An observable event of a run of `main`: directory creation, a render
of the icon (one call of `draw_icon`), a file read, a PNG write, or a
line printed to standard output.  The script performs no reads; the
`readFile` constructor exists so that the claim that it reads nothing is
expressible. -/
inductive Event
  | mkdirParents (dir : String)
  | render (size : ℕ)
  | readFile (path : String)
  | writePng (dir : String) (name : String) (img : OutImage)
  | printOut (line : String)
deriving DecidableEq, Repr

/-- The file name `f"icon_{s}.png"`. -/
def fileName (s : ℕ) : String := "icon_" ++ toString s ++ ".png"

/-- The body of `main`, generalised over the list iterated by the
`for s in SIZES` loop (`main` itself uses `SIZES`): mkdir, one master
render, then per size a save and a print, then the final print. -/
def mainEventsWith (m : PyMath) (sizes : List ℕ) : List Event :=
  let master : IconImage := draw_icon m MASTER_SIZE
  Event.mkdirParents OUT_DIR
    :: Event.render MASTER_SIZE
    :: (sizes.flatMap (fun s =>
        let out : OutImage :=
          if s = MASTER_SIZE then OutImage.master master
          else OutImage.resized master s s Resampling.LANCZOS
        [Event.writePng OUT_DIR (fileName s) out,
         Event.printOut ("Wrote " ++ fileName s)])
      ++ [Event.printOut
            "Done. Update Contents.json with filenames if not already set."])

/-- The event trace of `main()`. -/
def mainEvents (m : PyMath) : List Event := mainEventsWith m SIZES

/-- Whether an event is a `draw_icon` render. -/
def Event.isRender : Event → Bool
  | Event.render _ => true
  | _ => false

/-- Whether an event reads a file. -/
def Event.isRead : Event → Bool
  | Event.readFile _ => true
  | _ => false

/-- Whether an event writes a PNG file. -/
def Event.isWritePng : Event → Bool
  | Event.writePng _ _ _ => true
  | _ => false

/-- The PNG-write events of a trace, in order. -/
def writeEvents (evs : List Event) : List Event := evs.filter Event.isWritePng

/-- Summary of the PNG writes of a trace: file name and pixel dimensions
of each written image, in order. -/
def writeTriples (evs : List Event) : List (String × ℕ × ℕ) :=
  evs.flatMap (fun e =>
    match e with
    | Event.writePng _ n img => [(n, img.outWidth, img.outHeight)]
    | _ => [])

/-- The process context of an invocation: command-line arguments,
environment variables, and whether Pillow is importable. -/
structure ProcCtx where
  argv : List String
  environ : List (String × String)
  pillowInstalled : Bool

/-- The outcome of running the script: a handled `sys.exit`, an
exception propagated to the caller unhandled, or a completed run with
its event trace. -/
inductive Outcome
  | exit (code : ℕ) (stderrLines : List String)
  | uncaught (exc : String)
  | completed (events : List Event)
deriving DecidableEq, Repr

/-- The whole script: the `try: from PIL import ...` prologue followed by
`main()`.  `fsError` abstracts a filesystem exception raised during
`mkdir` or `save`; since `main` contains no handler, any such exception
propagates to the caller. -/
def script (m : PyMath) (ctx : ProcCtx) (fsError : Option String) : Outcome :=
  if ctx.pillowInstalled = false then
    Outcome.exit 1 ["Install Pillow: pip install Pillow"]
  else
    match fsError with
    | some e => Outcome.uncaught e
    | none => Outcome.completed (mainEvents m)

/-- A concrete interpretation of the `math` functions, used to witness the
universally quantified theorems at a specific input. -/
def pyMathZero : PyMath := ⟨fun _ => 0, fun _ => 0, fun _ => 0⟩

/-- Filtering the per-size save/print pairs of the `for s in SIZES` loop
down to the PNG writes leaves exactly one write per size. -/
theorem filter_writes (m : PyMath) (sizes : List ℕ) :
    (sizes.flatMap (fun s =>
        let out : OutImage :=
          if s = MASTER_SIZE then OutImage.master (draw_icon m MASTER_SIZE)
          else OutImage.resized (draw_icon m MASTER_SIZE) s s Resampling.LANCZOS
        [Event.writePng OUT_DIR (fileName s) out,
         Event.printOut ("Wrote " ++ fileName s)])).filter Event.isWritePng =
      sizes.map (fun s => Event.writePng OUT_DIR (fileName s)
        (if s = MASTER_SIZE then OutImage.master (draw_icon m MASTER_SIZE)
         else OutImage.resized (draw_icon m MASTER_SIZE) s s Resampling.LANCZOS)) := by
  induction sizes with
  | nil => rfl
  | cons s ss ih => simp [List.flatMap_cons, Event.isWritePng, ih]

/-- The PNG writes of a run of the loop body over any size list: one write
per size, in list order. -/
theorem writeEvents_mainEventsWith (m : PyMath) (sizes : List ℕ) :
    writeEvents (mainEventsWith m sizes) =
      sizes.map (fun s => Event.writePng OUT_DIR (fileName s)
        (if s = MASTER_SIZE then OutImage.master (draw_icon m MASTER_SIZE)
         else OutImage.resized (draw_icon m MASTER_SIZE) s s Resampling.LANCZOS)) := by
  show (Event.mkdirParents OUT_DIR :: Event.render MASTER_SIZE :: _).filter _ = _
  rw [List.filter_cons, List.filter_cons, List.filter_append]
  simpa [Event.isWritePng] using filter_writes m sizes

/-- C1: for every size `s` in `SIZES = [16, 32, 64, 128, 256, 512, 1024]`,
`main` writes an output image of dimensions `s` by `s` under the name
`icon_{s}.png`, so a run creates exactly 7 output files at the expected
pixel dimensions. -/
theorem main_writes_seven_files (m : PyMath) :
    writeTriples (mainEvents m) =
      [("icon_16.png", 16, 16), ("icon_32.png", 32, 32), ("icon_64.png", 64, 64),
       ("icon_128.png", 128, 128), ("icon_256.png", 256, 256),
       ("icon_512.png", 512, 512), ("icon_1024.png", 1024, 1024)] ∧
    writeTriples (mainEvents m) = SIZES.map (fun s => (fileName s, s, s)) ∧
    (writeTriples (mainEvents m)).length = 7 :=
  ⟨rfl, rfl, rfl⟩

/-- C2: for every size, `draw_icon` builds a square transparent RGBA canvas
of that size, paints a rounded-rectangle background, paints a filled circle
with an outline, and paints eight triangular ray polygons whose apex is the
circle centre `(size*0.5, size*0.48)`, the `i`-th ray at angle `i*45`
degrees spanning plus/minus 20 degrees at distance `0.4*size`. -/
theorem draw_icon_follows_steps (m : PyMath) (size : ℕ) :
    (draw_icon m size).width = size ∧
    (draw_icon m size).height = size ∧
    (draw_icon m size).mode = "RGBA" ∧
    (draw_icon m size).background = [0, 0, 0, 0] ∧
    ∃ rectBox rectRadius rectFill sunFill sunOutline sunWidth r_sun,
      (draw_icon m size).cmds =
        DrawCmd.rounded_rectangle rectBox rectRadius rectFill ::
        DrawCmd.ellipse
          [(size : ℚ) * (1 / 2) - r_sun, (size : ℚ) * (48 / 100) - r_sun,
           (size : ℚ) * (1 / 2) + r_sun, (size : ℚ) * (48 / 100) + r_sun]
          sunFill sunOutline sunWidth ::
        (List.range 8).map (fun i =>
          DrawCmd.polygon
            [(size : ℚ) * (1 / 2), (size : ℚ) * (48 / 100),
             (size : ℚ) * (1 / 2)
               + (size : ℚ) * (40 / 100) * m.cos (m.radians ((i : ℤ) * 45 - 20)),
             (size : ℚ) * (48 / 100)
               - (size : ℚ) * (40 / 100) * m.sin (m.radians ((i : ℤ) * 45 - 20)),
             (size : ℚ) * (1 / 2)
               + (size : ℚ) * (40 / 100) * m.cos (m.radians ((i : ℤ) * 45 + 20)),
             (size : ℚ) * (48 / 100)
               - (size : ℚ) * (40 / 100) * m.sin (m.radians ((i : ℤ) * 45 + 20))]
            [255, 230, 160]) :=
  ⟨rfl, rfl, rfl, rfl, _, _, _, _, _, _, _, rfl⟩

/-- C3: every PNG written by `main` at a width smaller than `MASTER_SIZE`
is the master render resized to that size with the LANCZOS filter, and the
only write that is not resampled is the one at the master size itself. -/
theorem smaller_outputs_resized_lanczos (m : PyMath) (e : Event)
    (he : e ∈ mainEvents m) (d n : String) (img : OutImage)
    (heq : e = Event.writePng d n img) :
    (img.outWidth < MASTER_SIZE →
      ∃ s, s ∈ SIZES ∧ s ≠ MASTER_SIZE ∧ n = fileName s ∧
        img = OutImage.resized (draw_icon m MASTER_SIZE) s s Resampling.LANCZOS) ∧
    (img.outWidth = MASTER_SIZE →
      img = OutImage.master (draw_icon m MASTER_SIZE)) := by
  subst heq
  simp [mainEvents, mainEventsWith, SIZES, MASTER_SIZE] at he
  rcases he with ⟨hd, hn, hi⟩ | ⟨hd, hn, hi⟩ | ⟨hd, hn, hi⟩ | ⟨hd, hn, hi⟩ |
    ⟨hd, hn, hi⟩ | ⟨hd, hn, hi⟩ | ⟨hd, hn, hi⟩ <;> subst hd hn hi
  · exact ⟨fun _ => ⟨16, by decide, by decide, rfl, rfl⟩,
      fun h => by simp [OutImage.outWidth, MASTER_SIZE] at h⟩
  · exact ⟨fun _ => ⟨32, by decide, by decide, rfl, rfl⟩,
      fun h => by simp [OutImage.outWidth, MASTER_SIZE] at h⟩
  · exact ⟨fun _ => ⟨64, by decide, by decide, rfl, rfl⟩,
      fun h => by simp [OutImage.outWidth, MASTER_SIZE] at h⟩
  · exact ⟨fun _ => ⟨128, by decide, by decide, rfl, rfl⟩,
      fun h => by simp [OutImage.outWidth, MASTER_SIZE] at h⟩
  · exact ⟨fun _ => ⟨256, by decide, by decide, rfl, rfl⟩,
      fun h => by simp [OutImage.outWidth, MASTER_SIZE] at h⟩
  · exact ⟨fun _ => ⟨512, by decide, by decide, rfl, rfl⟩,
      fun h => by simp [OutImage.outWidth, MASTER_SIZE] at h⟩
  · exact ⟨fun h => by simp [OutImage.outWidth, draw_icon, MASTER_SIZE] at h,
      fun _ => rfl⟩

/-- C3 witness: the 16-pixel output, present in the trace, is the master
render resized to 16 by 16 with LANCZOS. -/
theorem smaller_outputs_resized_lanczos_witness :
    ((OutImage.resized (draw_icon pyMathZero MASTER_SIZE) 16 16
        Resampling.LANCZOS).outWidth < MASTER_SIZE →
      ∃ s, s ∈ SIZES ∧ s ≠ MASTER_SIZE ∧ fileName 16 = fileName s ∧
        OutImage.resized (draw_icon pyMathZero MASTER_SIZE) 16 16 Resampling.LANCZOS
          = OutImage.resized (draw_icon pyMathZero MASTER_SIZE) s s Resampling.LANCZOS) ∧
    ((OutImage.resized (draw_icon pyMathZero MASTER_SIZE) 16 16
        Resampling.LANCZOS).outWidth = MASTER_SIZE →
      OutImage.resized (draw_icon pyMathZero MASTER_SIZE) 16 16 Resampling.LANCZOS
        = OutImage.master (draw_icon pyMathZero MASTER_SIZE)) :=
  smaller_outputs_resized_lanczos pyMathZero _
    (by simp [mainEvents, mainEventsWith, SIZES, MASTER_SIZE])
    OUT_DIR (fileName 16) _ rfl

/-- C4: if Pillow is missing at startup the script prints the install hint
to standard error and exits with status 1 before performing any event,
regardless of the filesystem; with Pillow present no handler remains, so a
filesystem exception raised during `mkdir` or `save` propagates to the
caller unhandled, and an error-free run completes. -/
theorem script_error_handling (m : PyMath) (ctx : ProcCtx)
    (fsError : Option String) :
    (ctx.pillowInstalled = false →
      script m ctx fsError = Outcome.exit 1 ["Install Pillow: pip install Pillow"]) ∧
    (∀ e, ctx.pillowInstalled = true →
      script m ctx (some e) = Outcome.uncaught e) ∧
    (ctx.pillowInstalled = true →
      script m ctx none = Outcome.completed (mainEvents m)) := by
  refine ⟨fun h => ?_, fun e h => ?_, fun h => ?_⟩ <;> simp [script, h]

/-- C4 witness: with Pillow missing the script exits with status 1 and the
hint on stderr; with Pillow present a permission error propagates. -/
theorem script_error_handling_witness :
    (⟨[], [], false⟩ : ProcCtx).pillowInstalled = false ∧
    script pyMathZero ⟨[], [], false⟩ (some "PermissionError")
      = Outcome.exit 1 ["Install Pillow: pip install Pillow"] ∧
    script pyMathZero ⟨[], [], true⟩ (some "PermissionError")
      = Outcome.uncaught "PermissionError" :=
  ⟨rfl,
   (script_error_handling pyMathZero ⟨[], [], false⟩ (some "PermissionError")).1 rfl,
   (script_error_handling pyMathZero ⟨[], [], true⟩
      (some "PermissionError")).2.1 "PermissionError" rfl⟩

/-- C5: the rendering is deterministic: `draw_icon` at equal sizes yields
identical images, and two runs of the script whose contexts agree on
Pillow availability produce identical outcomes, every input being a fixed
literal; in particular any error-free run yields the one fixed trace
`mainEvents`. -/
theorem script_deterministic (m : PyMath) (ctx₁ ctx₂ : ProcCtx)
    (fsError : Option String)
    (h : ctx₁.pillowInstalled = ctx₂.pillowInstalled) :
    (∀ size, draw_icon m size = draw_icon m size) ∧
    script m ctx₁ fsError = script m ctx₂ fsError ∧
    (ctx₁.pillowInstalled = true →
      script m ctx₁ none = Outcome.completed (mainEvents m)) := by
  refine ⟨fun _ => rfl, ?_, fun hp => by simp [script, hp]⟩
  unfold script
  rw [h]

/-- C5 witness: two runs with different argv and environment but Pillow
present produce the same outcome. -/
theorem script_deterministic_witness :
    (∀ size, draw_icon pyMathZero size = draw_icon pyMathZero size) ∧
    script pyMathZero ⟨["a"], [("HOME", "/x")], true⟩ none
      = script pyMathZero ⟨[], [], true⟩ none ∧
    ((⟨["a"], [("HOME", "/x")], true⟩ : ProcCtx).pillowInstalled = true →
      script pyMathZero ⟨["a"], [("HOME", "/x")], true⟩ none
        = Outcome.completed (mainEvents pyMathZero)) :=
  script_deterministic pyMathZero ⟨["a"], [("HOME", "/x")], true⟩ ⟨[], [], true⟩
    none rfl

/-- C6: the run reads no file, every PNG write lands in the fixed
directory `OUT_DIR`, and the written names are exactly one `icon_{s}.png`
per configured size. -/
theorem main_frame_effects (m : PyMath) :
    (mainEvents m).filter Event.isRead = [] ∧
    (writeTriples (mainEvents m)).map Prod.fst = SIZES.map fileName ∧
    (∀ e ∈ mainEvents m, ∀ d n img, e = Event.writePng d n img →
      d = OUT_DIR) := by
  refine ⟨rfl, rfl, fun e he d n img heq => ?_⟩
  subst heq
  simp [mainEvents, mainEventsWith, SIZES, MASTER_SIZE] at he
  rcases he with ⟨hd, _⟩ | ⟨hd, _⟩ | ⟨hd, _⟩ | ⟨hd, _⟩ | ⟨hd, _⟩ | ⟨hd, _⟩ |
    ⟨hd, _⟩ <;> exact hd

/-- C6 witness: the 16-pixel write event of the concrete trace lands in
`OUT_DIR`. -/
theorem main_frame_effects_witness :
    Event.writePng OUT_DIR (fileName 16)
      (OutImage.resized (draw_icon pyMathZero MASTER_SIZE) 16 16
        Resampling.LANCZOS) ∈ mainEvents pyMathZero ∧
    OUT_DIR = OUT_DIR :=
  ⟨by simp [mainEvents, mainEventsWith, SIZES, MASTER_SIZE],
   (main_frame_effects pyMathZero).2.2 _
    (by simp [mainEvents, mainEventsWith, SIZES, MASTER_SIZE])
    OUT_DIR (fileName 16)
    (OutImage.resized (draw_icon pyMathZero MASTER_SIZE) 16 16 Resampling.LANCZOS)
    rfl⟩

/-- C7: the run is independent of command-line arguments and environment
variables: two invocations differing only in argv or environ produce the
same outcome, writes and contents included. -/
theorem script_ignores_argv_environ (m : PyMath)
    (argv₁ argv₂ : List String) (env₁ env₂ : List (String × String))
    (pil : Bool) (fsError : Option String) :
    script m ⟨argv₁, env₁, pil⟩ fsError = script m ⟨argv₂, env₂, pil⟩ fsError :=
  rfl

/-- C8: the geometry of `draw_icon` is never degenerate: for every
positive size, the rounded-corner radius `max(2, int(size * 0.18))` of the
background is at least 2 and the circle outline width
`max(1, int(2 * size / 1024))` is at least 1. -/
theorem draw_icon_geometry_nondegenerate (m : PyMath) (size : ℕ)
    (h : 0 < size) :
    2 ≤ bgRadius (draw_icon m size) ∧
    1 ≤ sunOutlineWidth (draw_icon m size) :=
  ⟨le_max_left 2 _, le_max_left 1 _⟩

/-- C8 witness: at size 16 (far below the master size) the radius is
still at least 2 and the outline width at least 1. -/
theorem draw_icon_geometry_nondegenerate_witness :
    0 < 16 ∧
    (2 ≤ bgRadius (draw_icon pyMathZero 16) ∧
     1 ≤ sunOutlineWidth (draw_icon pyMathZero 16)) :=
  ⟨by decide, draw_icon_geometry_nondegenerate pyMathZero 16 (by decide)⟩

/-- C9: `draw_icon` is rendered exactly once per run, at `MASTER_SIZE`,
and the file `icon_1024.png` holds that master render saved directly, not
a resized image. -/
theorem master_rendered_once (m : PyMath) :
    (mainEvents m).filter Event.isRender = [Event.render MASTER_SIZE] ∧
    Event.writePng OUT_DIR (fileName MASTER_SIZE)
      (OutImage.master (draw_icon m MASTER_SIZE)) ∈ mainEvents m ∧
    (∀ img, Event.writePng OUT_DIR (fileName MASTER_SIZE) img ∈ mainEvents m →
      img = OutImage.master (draw_icon m MASTER_SIZE)) := by
  refine ⟨rfl, by simp [mainEvents, mainEventsWith, SIZES, MASTER_SIZE],
    fun img h => ?_⟩
  simp [mainEvents, mainEventsWith, SIZES, MASTER_SIZE] at h
  rcases h with ⟨hn, _⟩ | ⟨hn, _⟩ | ⟨hn, _⟩ | ⟨hn, _⟩ | ⟨hn, _⟩ | ⟨hn, _⟩ | hi
  · exact absurd hn (by decide)
  · exact absurd hn (by decide)
  · exact absurd hn (by decide)
  · exact absurd hn (by decide)
  · exact absurd hn (by decide)
  · exact absurd hn (by decide)
  · exact hi

/-- C9 witness: in the concrete trace the image written under
`icon_1024.png` is the master render. -/
theorem master_rendered_once_witness :
    Event.writePng OUT_DIR (fileName MASTER_SIZE)
      (OutImage.master (draw_icon pyMathZero MASTER_SIZE))
      ∈ mainEvents pyMathZero ∧
    OutImage.master (draw_icon pyMathZero MASTER_SIZE)
      = OutImage.master (draw_icon pyMathZero MASTER_SIZE) :=
  ⟨by simp [mainEvents, mainEventsWith, SIZES, MASTER_SIZE],
   (master_rendered_once pyMathZero).2.2 _
    (by simp [mainEvents, mainEventsWith, SIZES, MASTER_SIZE])⟩

/-- C10: every written image is derived from the one unmodified master
render, no output file name is written twice, and permuting the iteration
order of `SIZES` only permutes the writes. -/
theorem outputs_from_single_master (m : PyMath) :
    (∀ e ∈ mainEvents m, ∀ d n img, e = Event.writePng d n img →
      img.base = draw_icon m MASTER_SIZE) ∧
    ((writeTriples (mainEvents m)).map Prod.fst).Nodup ∧
    (∀ sizes : List ℕ, sizes.Perm SIZES →
      (writeEvents (mainEventsWith m sizes)).Perm (writeEvents (mainEvents m))) := by
  refine ⟨fun e he d n img heq => ?_, ?_, fun sizes hp => ?_⟩
  · subst heq
    simp [mainEvents, mainEventsWith, SIZES, MASTER_SIZE] at he
    rcases he with ⟨_, _, hi⟩ | ⟨_, _, hi⟩ | ⟨_, _, hi⟩ | ⟨_, _, hi⟩ |
      ⟨_, _, hi⟩ | ⟨_, _, hi⟩ | ⟨_, _, hi⟩ <;> subst hi <;> rfl
  · have hnames : (writeTriples (mainEvents m)).map Prod.fst
        = ["icon_16.png", "icon_32.png", "icon_64.png", "icon_128.png",
           "icon_256.png", "icon_512.png", "icon_1024.png"] := rfl
    rw [hnames]
    decide
  · rw [writeEvents_mainEventsWith, mainEvents, writeEvents_mainEventsWith]
    exact hp.map _

/-- C10 witness: the 16-pixel output is based on the master render, and
iterating the sizes in reverse order permutes the writes. -/
theorem outputs_from_single_master_witness :
    (OutImage.resized (draw_icon pyMathZero MASTER_SIZE) 16 16
        Resampling.LANCZOS).base = draw_icon pyMathZero MASTER_SIZE ∧
    (writeEvents (mainEventsWith pyMathZero SIZES.reverse)).Perm
      (writeEvents (mainEvents pyMathZero)) :=
  ⟨(outputs_from_single_master pyMathZero).1 _
      (by simp [mainEvents, mainEventsWith, SIZES, MASTER_SIZE])
      OUT_DIR (fileName 16) _ rfl,
   (outputs_from_single_master pyMathZero).2.2 SIZES.reverse
      (List.reverse_perm SIZES)⟩

end SunIcon
